import Mathlib

/-!
Verification development for the crop-prediction-map live session
orchestrator (`src/lib/tools/agricultural-tools.ts`) and the agricultural
form (`src/components/AgriculturalForm.tsx`).

The TypeScript sources are embedded shallowly: the Zustand stores
(`useLogStore`, `useMapStore`), the `GenAILiveClient` and the React state
are represented by explicit fields of an `AppState` record, and each event
handler becomes a pure state-transformation function.  JavaScript strings
are Lean `String`s; JavaScript numbers are `Rat` (the claims under study
involve no floating-point rounding); `undefined` is `Option.none`.
-/

namespace CropMap

/-- Transcript turn roles (`role: 'user' | 'agent' | 'system'`). -/
inductive Role where
  | user
  | agent
  | system
deriving DecidableEq, Repr

/-- A transcript turn `{role, text, isFinal}` as kept by the log store. -/
structure Turn where
  role : Role
  text : String
  isFinal : Bool
deriving DecidableEq, Repr

/-- A model-issued function call `{id, name, args}`.  `args` holds the
JSON rendering of the call's argument object (the orchestrator only ever
serialises it, so the serialised form is what the embedding carries). -/
structure FunctionCall where
  id : String
  name : String
  args : String
deriving DecidableEq, Repr

/-- A tool response `{id, name, response: {result}}` as pushed onto
`functionResponses` by `onToolCall`. -/
structure FunctionResponse where
  id : String
  name : String
  result : String
deriving DecidableEq, Repr

/-- Outcome of awaiting a tool handler: the resolved result string, or a
rejection (the thrown error's content is only logged, never inspected). -/
inductive HandlerOutcome where
  | success (result : String)
  | failure
deriving DecidableEq, Repr

/-- A tool implementation from the registry, applied to the call's args. -/
def Handler : Type := String → HandlerOutcome

/-- The tool registry `toolRegistry`: a string-keyed map from tool name to
handler; absent names yield `none` (`toolRegistry[fc.name]` is
`undefined`). -/
def Registry : Type := String → Option Handler

/-- Camera center `{lat, lng, altitude}`. -/
structure CameraCenter where
  lat : Rat
  lng : Rat
  altitude : Rat
deriving DecidableEq, Repr

/-- Camera target `{center, range, tilt, heading, roll}`. -/
structure CameraTarget where
  center : CameraCenter
  range : Rat
  tilt : Rat
  heading : Rat
  roll : Rat
deriving DecidableEq, Repr

/-- The combined application state visible to the orchestrator: the log
store (`turns`, `isAwaitingFunctionResponse`), the connection flag, the
map store (`markers`, camera state) and the live client
(`activeSessions`, the batches handed to `sendToolResponse`).
`cameraTargets` records every `setCameraTarget` call in order, so "exactly
one camera update" is observable; the current target is the last entry. -/
structure AppState where
  turns : List Turn
  isAwaitingFunctionResponse : Bool
  connected : Bool
  markers : List String
  cameraTargets : List CameraTarget
  preventAutoFrame : Bool
  activeSessions : Nat
  sentBatches : List (List FunctionResponse)
deriving DecidableEq, Repr

/-- The state before any event has fired. -/
def initialAppState : AppState :=
  { turns := []
    isAwaitingFunctionResponse := false
    connected := false
    markers := []
    cameraTargets := []
    preventAutoFrame := false
    activeSessions := 0
    sentBatches := [] }

/-- Modelled from the spec: `useLogStore.getState().addTurn` (the log
store lives in `lib/state`, outside the provided sources).  The spec's
data model says the transcript is an ordered, append-only sequence, so
`addTurn` appends the turn. -/
def addTurn (st : AppState) (t : Turn) : AppState :=
  { st with turns := st.turns ++ [t] }

/-- Modelled from the spec: `useLogStore.getState().updateLastTurn`
(outside the provided sources).  Per the spec's data model only the last
turn may be mutated, from non-final to final; the patch `{isFinal: true}`
is merged into the last turn. -/
def updateLastTurn (st : AppState) : AppState :=
  { st with
    turns :=
      match st.turns.getLast? with
      | some t => st.turns.dropLast ++ [{ t with isFinal := true }]
      | none => st.turns }

/-- Modelled from the spec: `setIsAwaitingFunctionResponse` of the log
store (outside the provided sources) sets the global "awaiting tool
response" flag. -/
def setIsAwaitingFunctionResponse (st : AppState) (b : Bool) : AppState :=
  { st with isAwaitingFunctionResponse := b }

/-- Modelled from the spec: `useLogStore.getState().clearTurns` (outside
the provided sources) empties the transcript. -/
def clearTurns (st : AppState) : AppState :=
  { st with turns := [] }

/-- Modelled from the spec: `useMapStore.getState().clearMarkers`
(outside the provided sources) empties the marker set. -/
def clearMarkers (st : AppState) : AppState :=
  { st with markers := [] }

/-- Modelled from the spec: `useMapStore.getState().setCameraTarget`
(outside the provided sources) applies a camera pose, last-writer-wins;
the embedding logs each application so updates can be counted. -/
def setCameraTarget (st : AppState) (t : CameraTarget) : AppState :=
  { st with cameraTargets := st.cameraTargets ++ [t] }

/-- Modelled from the spec: `useMapStore.getState().setPreventAutoFrame`
(outside the provided sources). -/
def setPreventAutoFrame (st : AppState) (b : Bool) : AppState :=
  { st with preventAutoFrame := b }

/-- Modelled from the spec: `GenAILiveClient.disconnect` (the client
lives in `lib/genai-live-client`, outside the provided sources) tears
down the connection and is a no-op when already disconnected. -/
def clientDisconnect (st : AppState) : AppState :=
  { st with activeSessions := 0 }

/-- Modelled from the spec: `GenAILiveClient.connect` (outside the
provided sources) establishes a fresh realtime connection. -/
def clientConnect (st : AppState) : AppState :=
  { st with activeSessions := st.activeSessions + 1 }

/-- Modelled from the spec: `GenAILiveClient.sendToolResponse` (outside
the provided sources) delivers one batch of tool responses back to the
model; the embedding records the batch. -/
def sendToolResponse (st : AppState) (responses : List FunctionResponse) : AppState :=
  { st with sentBatches := st.sentBatches ++ [responses] }

/-- The `close` handler (`onClose`): mark disconnected, then append a
turn (role `'agent'` in the source) whose text is the fixed notice
concatenated with the close event's `reason`. -/
def onClose (st : AppState) (reason : String) : AppState :=
  let st1 := { st with connected := false }
  addTurn st1
    ⟨Role.agent, "Session ended. Press \x27Play\x27 to start a new session. " ++ reason, true⟩

/-- The `interrupted` handler (`onInterrupted`): if the transcript has a
last turn and it is not final, patch it final; otherwise do nothing. -/
def onInterrupted (st : AppState) : AppState :=
  match st.turns.getLast? with
  | some lastTurn => if lastTurn.isFinal then st else updateLastTurn st
  | none => st

/-- A connection configuration object.  `fields` lists its own enumerable
entries, so `Config.mk []` is the empty object `{}`.  The orchestrator's
`config` is `Option Config`: `none` stands for JavaScript
`null`/`undefined` (falsy), while `some c` — the empty object included —
is truthy. -/
structure Config where
  fields : List (String × String)
deriving DecidableEq, Repr

/-- The orchestrator's `connect` callback: throw if `config` is falsy
(`!config`), else clear the transcript and the markers, force-disconnect
the client and connect fresh. -/
def connect (st : AppState) (config : Option Config) : Except String AppState :=
  match config with
  | none => Except.error "config has not been set"
  | some _ =>
    let st1 := clearTurns st
    let st2 := clearMarkers st1
    let st3 := clientDisconnect st2
    Except.ok (clientConnect st3)

/-- The orchestrator's `disconnect` callback: tear the client down and
mark disconnected. -/
def disconnect (st : AppState) : AppState :=
  let st1 := clientDisconnect st
  { st1 with connected := false }

/-- The system turn logged before dispatching a call (`triggerMessage`);
`fc.args` already carries the `JSON.stringify(fc.args, null, 2)` text. -/
def triggerMessage (fc : FunctionCall) : String :=
  "Triggering function call: **" ++ fc.name ++ "**\n```json\n" ++ fc.args ++ "\n```"

/-- The failure notice `errorMessage` built in the catch block. -/
def errorExecutingMessage (name : String) : String :=
  "Error executing tool " ++ name ++ "."

/-- The response recorded when the registry has no entry for the name. -/
def unknownToolMessage (name : String) : String :=
  "Unknown tool called: " ++ name ++ "."

/-- JSON rendering of one recorded response, standing in for the
`JSON.stringify` of a `functionResponses` element (the orchestrator only
embeds this text in a log turn, never re-parses it). -/
def renderResponse (r : FunctionResponse) : String :=
  "\x7b \"id\": \"" ++ r.id ++ "\", \"name\": \"" ++ r.name ++
    "\", \"response\": \x7b \"result\": \"" ++ r.result ++ "\" \x7d \x7d"

/-- JSON rendering of the whole response batch. -/
def renderResponses (rs : List FunctionResponse) : String :=
  "[" ++ String.intercalate ", " (rs.map renderResponse) ++ "]"

/-- The system turn logged after the batch (`responseMessage`). -/
def responseMessage (rs : List FunctionResponse) : String :=
  "Function call response:\n```json\n" ++ renderResponses rs ++ "\n```"

/-- One iteration of the `for (const fc of toolCall.functionCalls)` loop:
log the trigger turn, look the handler up, and either push the handler's
result, push the unknown-tool notice, or — when the handler rejects —
log the failure turn and push the failure notice.  The accumulator pairs
the evolving state with the `functionResponses` array. -/
def processFunctionCall (registry : Registry)
    (acc : AppState × List FunctionResponse) (fc : FunctionCall) :
    AppState × List FunctionResponse :=
  let st := addTurn acc.1 ⟨Role.system, triggerMessage fc, true⟩
  match registry fc.name with
  | some handler =>
    match handler fc.args with
    | HandlerOutcome.success r =>
      (st, acc.2 ++ [⟨fc.id, fc.name, r⟩])
    | HandlerOutcome.failure =>
      (addTurn st ⟨Role.system, errorExecutingMessage fc.name, true⟩,
       acc.2 ++ [⟨fc.id, fc.name, errorExecutingMessage fc.name⟩])
  | none =>
    (st, acc.2 ++ [⟨fc.id, fc.name, unknownToolMessage fc.name⟩])

/-- The `toolcall` handler (`onToolCall`): set the awaiting flag, run the
batch loop, log the collected responses when non-empty, call
`sendToolResponse` once with the full batch, and reset the flag in the
`finally` block.  `sendOk` models whether the send itself succeeds; a
rejected send skips the delivery but still reaches the `finally`. -/
def onToolCall (registry : Registry) (st : AppState)
    (batch : List FunctionCall) (sendOk : Bool) : AppState :=
  let st0 := setIsAwaitingFunctionResponse st true
  let res := batch.foldl (processFunctionCall registry) (st0, [])
  let responses := res.2
  let st1 :=
    if responses.isEmpty then res.1
    else addTurn res.1 ⟨Role.system, responseMessage responses, true⟩
  let st2 := if sendOk then sendToolResponse st1 responses else st1
  setIsAwaitingFunctionResponse st2 false

/-- The response one call contributes, as a function of the registry
alone (the loop body never reads the response for a call from the
state). -/
def callResponse (registry : Registry) (fc : FunctionCall) : FunctionResponse :=
  match registry fc.name with
  | some handler =>
    match handler fc.args with
    | HandlerOutcome.success r => ⟨fc.id, fc.name, r⟩
    | HandlerOutcome.failure => ⟨fc.id, fc.name, errorExecutingMessage fc.name⟩
  | none => ⟨fc.id, fc.name, unknownToolMessage fc.name⟩

/-- The response batch the loop accumulates for a given inbound batch. -/
def batchResponses (registry : Registry) (batch : List FunctionCall) :
    List FunctionResponse :=
  batch.map (callResponse registry)

/-- The transcript turns one call contributes: the trigger turn, then the
failure turn exactly when a found handler rejects. -/
def callTurns (registry : Registry) (fc : FunctionCall) : List Turn :=
  ⟨Role.system, triggerMessage fc, true⟩ ::
    (match registry fc.name with
     | some handler =>
       match handler fc.args with
       | HandlerOutcome.success _ => []
       | HandlerOutcome.failure => [⟨Role.system, errorExecutingMessage fc.name, true⟩]
     | none => [])

/-- The batch loop appends exactly the per-call turns to the transcript,
touches no other state field, and accumulates exactly the per-call
responses. -/
theorem processBatch_eq (registry : Registry) (batch : List FunctionCall) :
    ∀ (st : AppState) (acc : List FunctionResponse),
      batch.foldl (processFunctionCall registry) (st, acc) =
        ({ st with turns := st.turns ++ (batch.map (callTurns registry)).flatten },
         acc ++ batchResponses registry batch) := by
  induction batch with
  | nil => intro st acc; simp [batchResponses]
  | cons fc rest ih =>
    intro st acc
    rw [List.foldl_cons]
    show rest.foldl (processFunctionCall registry) (processFunctionCall registry (st, acc) fc) = _
    have hstep :
        processFunctionCall registry (st, acc) fc =
          ({ st with turns := st.turns ++ callTurns registry fc },
           acc ++ [callResponse registry fc]) := by
      unfold processFunctionCall callTurns callResponse
      cases hreg : registry fc.name with
      | none => simp [addTurn]
      | some handler =>
        cases hout : handler fc.args with
        | success r => simp [addTurn, hout]
        | failure => simp [addTurn, hout]
    rw [hstep, ih]
    simp [batchResponses]

/-- Closed form of the whole `toolcall` handler: the transcript grows by
the per-call turns plus (when any response was produced) the batch log
turn, the awaiting flag ends false, and a successful send delivers the
full response batch in one `sendToolResponse` call. -/
theorem onToolCall_eq (registry : Registry) (st : AppState)
    (batch : List FunctionCall) (sendOk : Bool) :
    onToolCall registry st batch sendOk =
      { st with
        turns :=
          (st.turns ++ (batch.map (callTurns registry)).flatten) ++
            (if (batchResponses registry batch).isEmpty then []
             else [⟨Role.system, responseMessage (batchResponses registry batch), true⟩]),
        isAwaitingFunctionResponse := false,
        sentBatches :=
          if sendOk then st.sentBatches ++ [batchResponses registry batch]
          else st.sentBatches } := by
  simp only [onToolCall, processBatch_eq]
  cases sendOk <;>
    cases h : (batchResponses registry batch).isEmpty <;>
      simp [h, addTurn, sendToolResponse, setIsAwaitingFunctionResponse]

/-- Soil types (`soilType` enum of `AgriculturalParameters`). -/
inductive SoilType where
  | clay
  | sandy
  | loamy
  | silt
  | peat
deriving DecidableEq, Repr

/-- The string a `SoilType` interpolates to. -/
def SoilType.render : SoilType → String
  | SoilType.clay => "clay"
  | SoilType.sandy => "sandy"
  | SoilType.loamy => "loamy"
  | SoilType.silt => "silt"
  | SoilType.peat => "peat"

/-- Climate zones (`climate` enum of `AgriculturalParameters`). -/
inductive Climate where
  | tropical
  | arid
  | temperate
  | continental
  | polar
deriving DecidableEq, Repr

/-- The string a `Climate` interpolates to. -/
def Climate.render : Climate → String
  | Climate.tropical => "tropical"
  | Climate.arid => "arid"
  | Climate.temperate => "temperate"
  | Climate.continental => "continental"
  | Climate.polar => "polar"

/-- Seasons (`season` enum of `AgriculturalParameters`). -/
inductive Season where
  | spring
  | summer
  | fall
  | winter
deriving DecidableEq, Repr

/-- The string a `Season` interpolates to. -/
def Season.render : Season → String
  | Season.spring => "spring"
  | Season.summer => "summer"
  | Season.fall => "fall"
  | Season.winter => "winter"

/-- The `AgriculturalParameters` interface: five required fields, five
optional ones (`Option.none` is `undefined`). -/
structure AgriculturalParameters where
  latitude : Rat
  longitude : Rat
  soilType : SoilType
  climate : Climate
  season : Season
  rainfall : Option Rat
  temperature : Option Rat
  irrigationAvailable : Option Bool
  farmSize : Option Rat
  previousCrop : Option String
deriving DecidableEq, Repr

/-- The rainfall prompt segment
(the conditional interpolation of `params.rainfall`): a JavaScript number
is truthy exactly when it is defined and non-zero, so `some 0` renders
the empty string just like `none`. -/
def rainfallLine : Option Rat → String
  | some r => if r = 0 then "" else "Annual Rainfall: " ++ toString r ++ "mm"
  | none => ""

/-- The temperature prompt segment, same truthiness rule. -/
def temperatureLine : Option Rat → String
  | some t => if t = 0 then "" else "Average Temperature: " ++ toString t ++ "°C"
  | none => ""

/-- The irrigation prompt segment: the source tests
`params.irrigationAvailable !== undefined`, so `false` still renders the
"No" line and only `undefined` omits it. -/
def irrigationLine : Option Bool → String
  | some b => "Irrigation Available: " ++ (if b then "Yes" else "No")
  | none => ""

/-- The farm-size prompt segment, same number truthiness rule. -/
def farmSizeLine : Option Rat → String
  | some s => if s = 0 then "" else "Farm Size: " ++ toString s ++ " hectares"
  | none => ""

/-- The previous-crop prompt segment: an empty string is falsy. -/
def previousCropLine : Option String → String
  | some s => if s = "" then "" else "Previous Crop: " ++ s
  | none => ""

/-- The `agriculturalPrompt` template literal built inside
`fetchAgriculturalRecommendations`; every interpolated segment keeps its
own line, empty when the parameter is falsy/undefined. -/
def agriculturalPrompt (p : AgriculturalParameters) : String :=
  "Location: " ++ toString p.latitude ++ ", " ++ toString p.longitude ++ "\n" ++
  "Soil Type: " ++ p.soilType.render ++ "\n" ++
  "Climate: " ++ p.climate.render ++ "\n" ++
  "Season: " ++ p.season.render ++ "\n" ++
  rainfallLine p.rainfall ++ "\n" ++
  temperatureLine p.temperature ++ "\n" ++
  irrigationLine p.irrigationAvailable ++ "\n" ++
  farmSizeLine p.farmSize ++ "\n" ++
  previousCropLine p.previousCrop ++ "\n" ++
  "\nPlease provide detailed crop recommendations for this agricultural location."

/-- `zoomToLocation`: apply the fixed field-level camera pose (750m
altitude, 2.5km range, 50° tilt, 0 heading/roll) and suppress
auto-framing. -/
def zoomToLocation (latitude longitude : Rat) (st : AppState) : AppState :=
  let st1 := setCameraTarget st
    { center := { lat := latitude, lng := longitude, altitude := 750 }
      range := 2500
      tilt := 50
      heading := 0
      roll := 0 }
  setPreventAutoFrame st1 true

/-- The stubbed HTTP reply from the recommendation endpoint: the status
code, the raw body text (read by `response.text()` on failure) and the
parsed payload (read by `response.json()` on success). -/
structure HttpResponse where
  status : Nat
  body : String
  data : String
deriving DecidableEq, Repr

/-- `Response.ok` of the fetch API: status in the 2xx range. -/
def respOk (status : Nat) : Bool :=
  200 ≤ status && status < 300

/-- `fetchAgriculturalRecommendations` against a stubbed HTTP reply:
missing credential throws; a non-ok reply throws an error embedding the
status and body and leaves the map state untouched; an ok reply zooms to
the location and returns the parsed payload.  The empty `apiKey` string
models the missing `API_KEY` environment variable (`!API_KEY`). -/
def fetchAgriculturalRecommendations (apiKey : String)
    (params : AgriculturalParameters) (resp : HttpResponse) (st : AppState) :
    Except String String × AppState :=
  if apiKey = "" then
    (Except.error "Missing required environment variable: API_KEY", st)
  else if respOk resp.status then
    let st1 := zoomToLocation params.latitude params.longitude st
    (Except.ok resp.data, st1)
  else
    (Except.error
      ("API request failed with status " ++ toString resp.status ++ ": " ++ resp.body),
     st)

/-- The coercion `parseFloat(e.target.value) || undefined` used by the
form's optional numeric fields: `none` in models `parseFloat` returning
`NaN`; both `NaN` and `0` are falsy, so both store `undefined`. -/
def numOrUndefined (parsed : Option Rat) : Option Rat :=
  match parsed with
  | some v => if v = 0 then none else some v
  | none => none

/-- The rainfall input's `onChange` handler:
`handleInputChange('rainfall', parseFloat(...) || undefined)`. -/
def setRainfall (fd : AgriculturalParameters) (parsed : Option Rat) :
    AgriculturalParameters :=
  { fd with rainfall := numOrUndefined parsed }

/-- The temperature input's `onChange` handler. -/
def setTemperature (fd : AgriculturalParameters) (parsed : Option Rat) :
    AgriculturalParameters :=
  { fd with temperature := numOrUndefined parsed }

/-- The farm-size input's `onChange` handler. -/
def setFarmSize (fd : AgriculturalParameters) (parsed : Option Rat) :
    AgriculturalParameters :=
  { fd with farmSize := numOrUndefined parsed }

theorem callResponse_id (registry : Registry) (fc : FunctionCall) :
    (callResponse registry fc).id = fc.id := by
  unfold callResponse
  cases registry fc.name with
  | none => rfl
  | some handler => cases hout : handler fc.args <;> simp [hout]

theorem callResponse_name (registry : Registry) (fc : FunctionCall) :
    (callResponse registry fc).name = fc.name := by
  unfold callResponse
  cases registry fc.name with
  | none => rfl
  | some handler => cases hout : handler fc.args <;> simp [hout]

theorem batchResponses_id_name (registry : Registry) (batch : List FunctionCall) :
    (batchResponses registry batch).map (fun r => (r.id, r.name)) =
      batch.map (fun fc => (fc.id, fc.name)) := by
  induction batch with
  | nil => rfl
  | cons fc rest ih =>
    simp only [batchResponses, List.map_cons] at ih ⊢
    rw [ih, callResponse_id, callResponse_name]

/-- C1: for every inbound batch of N calls, `onToolCall` hands
`sendToolResponse` exactly one batch, of exactly N responses, whose
`{id, name}` pairs are the input calls' pairs in input order (so each
input call's id is echoed exactly once), whatever the registry's handlers
do. -/
theorem toolcall_batch_responses_ordered (registry : Registry) (st : AppState)
    (batch : List FunctionCall) :
    (onToolCall registry st batch true).sentBatches =
        st.sentBatches ++ [batchResponses registry batch] ∧
    (batchResponses registry batch).length = batch.length ∧
    (batchResponses registry batch).map (fun r => (r.id, r.name)) =
      batch.map (fun fc => (fc.id, fc.name)) := by
  refine ⟨?_, ?_, batchResponses_id_name registry batch⟩
  · rw [onToolCall_eq]; simp
  · simp [batchResponses]

/-- C4: `onToolCall` leaves the "awaiting tool response" flag false on
exit, for every registry, batch and send outcome, and the whole batch
loop runs with the flag set true. -/
theorem toolcall_awaiting_flag_reset (registry : Registry) (st : AppState)
    (batch : List FunctionCall) (sendOk : Bool) :
    (onToolCall registry st batch sendOk).isAwaitingFunctionResponse = false ∧
    (batch.foldl (processFunctionCall registry)
        (setIsAwaitingFunctionResponse st true, [])).1.isAwaitingFunctionResponse = true := by
  constructor
  · rw [onToolCall_eq]
  · rw [processBatch_eq]; rfl

/-- C7: when the last transcript turn is not final, `onInterrupted`
marks exactly that turn final and creates no new turn; when the last
turn is already final, or the transcript is empty, the state is
unchanged. -/
theorem interrupted_finalizes_nonfinal_last_turn (st : AppState)
    (ts : List Turn) (r : Role) (s : String) :
    (onInterrupted { st with turns := ts ++ [⟨r, s, false⟩] }).turns =
        ts ++ [⟨r, s, true⟩] ∧
    onInterrupted { st with turns := ts ++ [⟨r, s, true⟩] } =
        { st with turns := ts ++ [⟨r, s, true⟩] } ∧
    onInterrupted { st with turns := [] } = { st with turns := [] } := by
  refine ⟨?_, ?_, ?_⟩
  · simp [onInterrupted, updateLastTurn, List.getLast?_concat, List.dropLast_concat]
  · simp [onInterrupted, List.getLast?_concat]
  · simp [onInterrupted]

/-- C6 counterexample: at a concrete close event the single appended
turn has role `agent`, not `system`, refuting "appends a system
transcript turn". -/
theorem close_turn_role_is_agent :
    (onClose initialAppState "network failure").turns.map Turn.role = [Role.agent] ∧
    Role.agent ≠ Role.system := by
  exact ⟨rfl, by decide⟩

/-- C6 (amended): `onClose` marks the session disconnected and appends
one final transcript turn of role `agent` whose text is the fixed
session-ended notice followed by the close event's reason. -/
theorem close_marks_disconnected_appends_turn (st : AppState) (reason : String) :
    (onClose st reason).connected = false ∧
    (onClose st reason).turns =
      st.turns ++
        [⟨Role.agent,
          "Session ended. Press \x27Play\x27 to start a new session. " ++ reason,
          true⟩] := by
  constructor <;> simp [onClose, addTurn]

/-- C5 counterexample: with the empty configuration object the guard
`!config` does not fire — `connect` succeeds instead of failing with a
configuration error. -/
theorem connect_empty_config_succeeds :
    connect initialAppState (some (Config.mk [])) =
      Except.ok
        { turns := []
          isAwaitingFunctionResponse := false
          connected := false
          markers := []
          cameraTargets := []
          preventAutoFrame := false
          activeSessions := 1
          sentBatches := [] } := by
  rfl

/-- C5 (amended): `connect` fails only when the configuration is unset
(falsy); for every set configuration — the empty object included — it
clears the transcript and markers and tears down any existing client
before connecting, leaving exactly one active connection, so two
successive calls also end with exactly one. -/
theorem connect_requires_set_config (st : AppState) (cfg : Config) :
    connect st none = Except.error "config has not been set" ∧
    connect st (some cfg) =
      Except.ok { st with turns := [], markers := [], activeSessions := 1 } := by
  constructor
  · rfl
  · simp [connect, clearTurns, clearMarkers, clientDisconnect, clientConnect]

/-- C9: each optional numeric form field stores
`parseFloat(...) || undefined`, so a parsed value of `0` is stored as
`undefined` (absent) rather than `0`. -/
theorem form_zero_optional_becomes_undefined (fd : AgriculturalParameters) :
    (setRainfall fd (some 0)).rainfall = none ∧
    (setTemperature fd (some 0)).temperature = none ∧
    (setFarmSize fd (some 0)).farmSize = none ∧
    numOrUndefined (some 0) = none := by
  refine ⟨?_, ?_, ?_, ?_⟩ <;>
    simp [setRainfall, setTemperature, setFarmSize, numOrUndefined]

/-- C10: in the recommendation prompt a `0` rainfall, temperature or
farm size renders exactly as an absent one (the whole prompt coincides),
while `irrigationAvailable = false` still renders the
"Irrigation Available: No" line and only `undefined` renders nothing. -/
theorem prompt_zero_numeric_omitted_false_irrigation_kept
    (p : AgriculturalParameters) :
    agriculturalPrompt { p with rainfall := some 0 } =
        agriculturalPrompt { p with rainfall := none } ∧
    agriculturalPrompt { p with temperature := some 0 } =
        agriculturalPrompt { p with temperature := none } ∧
    agriculturalPrompt { p with farmSize := some 0 } =
        agriculturalPrompt { p with farmSize := none } ∧
    irrigationLine (some false) = "Irrigation Available: No" ∧
    irrigationLine (some true) = "Irrigation Available: Yes" ∧
    irrigationLine none = "" := by
  refine ⟨?_, ?_, ?_, by rfl, by rfl, rfl⟩ <;>
    simp [agriculturalPrompt, rainfallLine, temperatureLine, farmSizeLine]

/-- C2: when the handler found for the i-th call rejects, the final
state's transcript contains the system failure turn naming the tool, the
i-th recorded response carries that same failure notice as its result,
and every sibling call still gets its response (the batch keeps full
length). -/
theorem toolcall_failure_recorded (registry : Registry) (st : AppState)
    (batch : List FunctionCall) (sendOk : Bool) (i : Nat) (fc : FunctionCall)
    (handler : Handler) (h1 : batch[i]? = some fc)
    (h2 : registry fc.name = some handler)
    (h3 : handler fc.args = HandlerOutcome.failure) :
    Turn.mk Role.system (errorExecutingMessage fc.name) true ∈
        (onToolCall registry st batch sendOk).turns ∧
    (batchResponses registry batch)[i]? =
        some (FunctionResponse.mk fc.id fc.name (errorExecutingMessage fc.name)) ∧
    (batchResponses registry batch).length = batch.length := by
  refine ⟨?_, ?_, ?_⟩
  · rw [onToolCall_eq]
    have hmem : fc ∈ batch := by
      rcases List.getElem?_eq_some.mp h1 with ⟨hlt, heq⟩
      exact heq ▸ List.getElem_mem hlt
    have hin : Turn.mk Role.system (errorExecutingMessage fc.name) true ∈
        callTurns registry fc := by
      simp [callTurns, h2, h3]
    have hflat : Turn.mk Role.system (errorExecutingMessage fc.name) true ∈
        (batch.map (callTurns registry)).flatten :=
      List.mem_flatten.mpr ⟨_, List.mem_map_of_mem _ hmem, hin⟩
    simp [hflat]
  · simp [batchResponses, List.getElem?_map, h1, callResponse, h2, h3]
  · simp [batchResponses]

/-- C2 witness: a two-call batch whose first handler rejects. -/
def registryC2 : Registry := fun n =>
  if n = "frameEarth" then some (fun _ => HandlerOutcome.failure) else none

/-- C2 witness: the inbound batch. -/
def batchC2 : List FunctionCall :=
  [⟨"call-1", "frameEarth", "null"⟩, ⟨"call-2", "dropPin", "null"⟩]

theorem toolcall_failure_recorded_witness :
    (batchC2[0]? = some (FunctionCall.mk "call-1" "frameEarth" "null") ∧
     registryC2 "frameEarth" = some (fun _ => HandlerOutcome.failure) ∧
     (fun _ : String => HandlerOutcome.failure) "null" = HandlerOutcome.failure) ∧
    (Turn.mk Role.system (errorExecutingMessage "frameEarth") true ∈
        (onToolCall registryC2 initialAppState batchC2 true).turns ∧
     (batchResponses registryC2 batchC2)[0]? =
        some (FunctionResponse.mk "call-1" "frameEarth"
          (errorExecutingMessage "frameEarth")) ∧
     (batchResponses registryC2 batchC2).length = batchC2.length) :=
  ⟨⟨rfl, rfl, rfl⟩,
   toolcall_failure_recorded registryC2 initialAppState batchC2 true 0
     (FunctionCall.mk "call-1" "frameEarth" "null")
     (fun _ => HandlerOutcome.failure) rfl rfl rfl⟩

/-- C3: a call whose name has no registry entry is answered with the
unknown-tool notice, whose result string contains the tool name, and the
handler still runs to completion (no exception escapes: the total
function `onToolCall` ends in a state with the awaiting flag reset). -/
theorem toolcall_unknown_tool (registry : Registry) (st : AppState)
    (batch : List FunctionCall) (sendOk : Bool) (i : Nat) (fc : FunctionCall)
    (h1 : batch[i]? = some fc) (h2 : registry fc.name = none) :
    (batchResponses registry batch)[i]? =
        some (FunctionResponse.mk fc.id fc.name (unknownToolMessage fc.name)) ∧
    (∃ a b, unknownToolMessage fc.name = a ++ fc.name ++ b) ∧
    (onToolCall registry st batch sendOk).isAwaitingFunctionResponse = false := by
  refine ⟨?_, ⟨"Unknown tool called: ", ".", rfl⟩, ?_⟩
  · simp [batchResponses, List.getElem?_map, h1, callResponse, h2]
  · rw [onToolCall_eq]

/-- C3 witness: a registry knowing only one tool, called with another. -/
def registryC3 : Registry := fun n =>
  if n = "frameEarth" then some (fun _ => HandlerOutcome.success "ok") else none

/-- C3 witness: the inbound batch. -/
def batchC3 : List FunctionCall := [⟨"call-9", "mysteryTool", "null"⟩]

theorem toolcall_unknown_tool_witness :
    (batchC3[0]? = some (FunctionCall.mk "call-9" "mysteryTool" "null") ∧
     registryC3 "mysteryTool" = none) ∧
    ((batchResponses registryC3 batchC3)[0]? =
        some (FunctionResponse.mk "call-9" "mysteryTool"
          (unknownToolMessage "mysteryTool")) ∧
     (∃ a b, unknownToolMessage "mysteryTool" = a ++ "mysteryTool" ++ b) ∧
     (onToolCall registryC3 initialAppState batchC3 true).isAwaitingFunctionResponse =
        false) :=
  ⟨⟨rfl, rfl⟩,
   toolcall_unknown_tool registryC3 initialAppState batchC3 true 0
     (FunctionCall.mk "call-9" "mysteryTool" "null") rfl rfl⟩

/-- C8: with a credential present, `fetchAgriculturalRecommendations`
performs exactly one camera update exactly when the stubbed reply is
successful: a 200 reply yields the parsed payload and appends the one
fixed camera target (750m altitude, 2500 range, 50 tilt, 0 heading/roll)
with auto-framing suppressed, while any non-2xx status yields an error
embedding the status and body and leaves the map state untouched. -/
theorem fetch_recommendations_camera_iff_ok (k : String)
    (p : AgriculturalParameters) (body data : String) (status : Nat)
    (st : AppState) (hk : k ≠ "") (hs : respOk status = false) :
    fetchAgriculturalRecommendations k p ⟨200, body, data⟩ st =
      (Except.ok data,
       { st with
         cameraTargets := st.cameraTargets ++
           [{ center := { lat := p.latitude, lng := p.longitude, altitude := 750 }
              range := 2500
              tilt := 50
              heading := 0
              roll := 0 }]
         preventAutoFrame := true }) ∧
    fetchAgriculturalRecommendations k p ⟨status, body, data⟩ st =
      (Except.error
        ("API request failed with status " ++ toString status ++ ": " ++ body),
       st) := by
  have h200 : respOk 200 = true := by rfl
  constructor
  · simp [fetchAgriculturalRecommendations, hk, h200, zoomToLocation,
      setCameraTarget, setPreventAutoFrame]
  · simp [fetchAgriculturalRecommendations, hk, hs]

/-- C8 witness: concrete parameters for the camera-update theorem. -/
def paramsC8 : AgriculturalParameters :=
  ⟨40, -74, SoilType.loamy, Climate.temperate, Season.spring,
   none, none, none, none, none⟩

theorem fetch_recommendations_camera_iff_ok_witness :
    ("key" ≠ "" ∧ respOk 500 = false) ∧
    (fetchAgriculturalRecommendations "key" paramsC8 ⟨200, "oops", "yield data"⟩
        initialAppState =
      (Except.ok "yield data",
       { initialAppState with
         cameraTargets := initialAppState.cameraTargets ++
           [{ center := { lat := paramsC8.latitude, lng := paramsC8.longitude,
                          altitude := 750 }
              range := 2500
              tilt := 50
              heading := 0
              roll := 0 }]
         preventAutoFrame := true }) ∧
     fetchAgriculturalRecommendations "key" paramsC8 ⟨500, "oops", "yield data"⟩
        initialAppState =
      (Except.error
        ("API request failed with status " ++ toString 500 ++ ": " ++ "oops"),
       initialAppState)) :=
  ⟨⟨by decide, by rfl⟩,
   fetch_recommendations_camera_iff_ok "key" paramsC8 "oops" "yield data" 500
     initialAppState (by decide) (by rfl)⟩

end CropMap
